import Mathlib

/-!
Shallow embedding of the TEN runtime engine `remote_interface` core
(`core/src/ten_runtime/engine/internal/remote_interface.c`).

The engine keeps two remote tables: `remotes` (the strong hashtable keyed
by URI) and `weak_remotes` (an ordered list).  Pointer identity of a
`ten_remote_t` is modelled by a numeric id `rid`; the containers are
modelled by lists (the strong hashtable holds at most one entry per URI,
which the list model reflects via `find?` lookups).  Side effects of the C
code — sends, dispatches, callbacks, closes, destroys — are reified as an
`Effect` list returned beside the updated engine state, so theorems can
state exactly which observable actions an operation performs.
-/

namespace TenRemoteInterface

/-- Message types relevant to this core (`TEN_MSG_TYPE_*`).  `cmd` stands
for the generic command types; `cmd_result` never enters the routed paths
modelled here, results appear only as produced effects. -/
inductive MsgType where
  | cmd
  | cmd_start_graph
  | data
  | video_frame
  | audio_frame
  deriving DecidableEq, Repr

/-- Modelled from the spec: the message type discriminator distinguishes
commands from data-like messages (`ten_msg_is_cmd`, defined in the msg
subsystem, which is outside the provided sources). -/
def ten_msg_is_cmd (t : MsgType) : Bool :=
  match t with
  | .cmd => true
  | .cmd_start_graph => true
  | .data => false
  | .video_frame => false
  | .audio_frame => false

/-- A message with a single destination (`ten_msg_get_dest_cnt(msg) == 1`
is asserted by the routed paths).  `dest_uri` is the first destination's
app URI; the graph-id fields are the ones annotated by
`ten_engine_receive_msg_from_remote`. -/
structure Msg where
  type : MsgType
  dest_uri : String
  src_graph_id : Option String
  dest_graph_id : Option String
  deriving DecidableEq, Repr

/-- One `ten_remote_t`: `rid` models the pointer identity of the C object,
`uri` is the peer URI field. -/
structure Remote where
  rid : Nat
  uri : String
  deriving DecidableEq, Repr

/-- Status codes of `ten_cmd_result` (`TEN_STATUS_CODE_*`). -/
inductive StatusCode where
  | ok
  | error
  deriving DecidableEq, Repr

/-- Observable side effects performed by the embedded operations. -/
inductive Effect where
  /-- Source `ten_remote_send_msg(remote, msg)` succeeded: `msg` delivered on the
  remote's channel. -/
  | remote_send_msg (r : Remote) (m : Msg)
  /-- Source `ten_engine_create_cmd_result_and_dispatch(self, msg, status, detail)`:
  a synthetic command result dispatched locally. -/
  | create_cmd_result_and_dispatch (status : StatusCode) (detail : String)
  /-- Source `ten_connection_send_msg(remote->connection, cmd_result)`: a command
  result sent back over the originating remote's connection. -/
  | connection_send_cmd_result (status : StatusCode) (detail : String)
  /-- Source `ten_engine_dispatch_msg(engine, msg)`. -/
  | dispatch_msg (m : Msg)
  /-- Source `ten_engine_return_error_for_cmd_start_graph(engine, cmd, detail)`. -/
  | return_error_for_cmd_start_graph (detail : String)
  /-- Source `ten_engine_return_ok_for_cmd_start_graph(engine, cmd)`. -/
  | return_ok_for_cmd_start_graph
  /-- Source `ten_remote_close(remote)`. -/
  | remote_close (r : Remote)
  /-- Source `ten_remote_destroy(remote)`. -/
  | remote_destroy (r : Remote)
  /-- Source `ten_remote_connect_to(remote, on_connected, cmd, on_error)`. -/
  | remote_connect_to (r : Remote)
  /-- Source `ten_protocol_send_msg(remote->connection->protocol, cmd)`. -/
  | protocol_send_msg (m : Msg)
  /-- Re-entering `ten_engine_on_close(self)`. -/
  | engine_on_close
  /-- Scheduling `ten_engine_close_async(self)`. -/
  | engine_close_async
  /-- Source `ten_protocol_set_on_closed(protocol, ten_engine_on_protocol_closed, self)`. -/
  | protocol_set_on_closed
  /-- Source `ten_protocol_close(protocol)`. -/
  | protocol_close
  /-- The pending-creation callback `ctx->cb(engine, remote_or_null, user_data)`. -/
  | cb_invoked (result : Option Remote)
  /-- Source `ten_engine_on_protocol_created_ctx_destroy(ctx)`. -/
  | ctx_destroy
  /-- Source `ten_ref_dec_ref(&protocol->ref)`. -/
  | protocol_ref_dec
  deriving DecidableEq, Repr

/-- The engine fields this core reads and writes.  `uri` is the local app
URI (`ten_app_get_uri(self->app)`), `remotes` the strong hashtable,
`weak_remotes` the weak list. -/
structure Engine where
  uri : String
  graph_id : String
  remotes : List Remote
  weak_remotes : List Remote
  is_closing : Bool
  long_running_mode : Bool
  has_uncompleted_async_task : Bool
  predefined_graph_names : List String
  deriving DecidableEq, Repr

/-- Modelled from the spec: `ten_c_string_is_equal_or_smaller(a, b)` (from
`ten_utils/lib/string`, outside the provided sources) is the bytewise
lexicographic comparison `a <= b` used as the duplicate tiebreak
("peer_uri <= local_uri by lexicographic compare"). -/
def c_string_le : List Char → List Char → Bool
  | [], _ => true
  | _ :: _, [] => false
  | x :: xs, y :: ys =>
      if x.toNat < y.toNat then true
      else if y.toNat < x.toNat then false
      else c_string_le xs ys

/-- Source `ten_c_string_is_equal_or_smaller` on the string model. -/
def ten_c_string_is_equal_or_smaller (a b : String) : Bool :=
  c_string_le a.toList b.toList

/-- Source `ten_engine_del_weak_remote`: `ten_list_remove_ptr(&self->weak_remotes,
remote)` removes the first node holding this pointer and reports whether one
was found. -/
def ten_engine_del_weak_remote (e : Engine) (r : Remote) : Engine × Bool :=
  ({ e with weak_remotes := e.weak_remotes.erase r }, e.weak_remotes.contains r)

/-- Source `ten_engine_find_weak_remote`: first weak remote whose `uri` equals
the argument. -/
def ten_engine_find_weak_remote (e : Engine) (uri : String) : Option Remote :=
  e.weak_remotes.find? (fun r => r.uri == uri)

/-- Source `ten_engine_weak_remotes_cnt_in_specified_uri`:
`ten_list_find_ptr_cnt_custom(&self->weak_remotes, uri,
ten_remote_is_uri_equal_to)`. -/
def ten_engine_weak_remotes_cnt_in_specified_uri (e : Engine) (uri : String) : Nat :=
  (e.weak_remotes.filter (fun r => r.uri == uri)).length

/-- Source `ten_engine_find_remote`: lookup in the strong hashtable by URI
(`ten_hashtable_find_string(&self->remotes, uri)`). -/
def ten_engine_find_remote (e : Engine) (uri : String) : Option Remote :=
  e.remotes.find? (fun r => r.uri == uri)

/-- Source `ten_engine_add_remote`: insert into the strong hashtable keyed by the
remote's URI. -/
def ten_engine_add_remote (e : Engine) (r : Remote) : Engine :=
  { e with remotes := e.remotes ++ [r] }

/-- Source `ten_engine_add_weak_remote`: `ten_list_push_ptr_back(&self->weak_remotes,
remote, NULL)`.  The `TEN_ASSERT(!found, ...)` precondition — no existing
weak entry with the same URI — is carried as a hypothesis by the theorems
about this operation. -/
def ten_engine_add_weak_remote (e : Engine) (r : Remote) : Engine :=
  { e with weak_remotes := e.weak_remotes ++ [r] }

/-- Source `ten_engine_upgrade_weak_remote_to_normal_remote`: remove from the weak
list, then add to the strong table. -/
def ten_engine_upgrade_weak_remote_to_normal_remote (e : Engine) (r : Remote) : Engine :=
  ten_engine_add_remote (ten_engine_del_weak_remote e r).1 r

/-- Source `ten_engine_on_remote_closed`: remove the closed remote from whichever
table held it, then drive the engine lifecycle.  Mirrors the C control flow:
weak removal first; otherwise a strong-table lookup by URI that only counts
as found when the entry is this very instance; the not-found path destroys
the remote and returns early, skipping the lifecycle step. -/
def ten_engine_on_remote_closed (e : Engine) (r : Remote) : Engine × List Effect :=
  let is_weak := e.weak_remotes.contains r
  if is_weak then
    let e1 : Engine := { e with weak_remotes := e.weak_remotes.erase r }
    if e1.is_closing then
      (e1, [Effect.remote_destroy r, Effect.engine_on_close])
    else
      -- `is_weak` is true here, so the `!is_weak && !long_running_mode`
      -- branch never fires on this path.
      (e1, [Effect.remote_destroy r])
  else
    match e.remotes.find? (fun s => s.uri == r.uri) with
    | some strong_remote =>
        if strong_remote == r then
          let e1 : Engine := { e with remotes := e.remotes.erase strong_remote }
          if e1.is_closing then
            (e1, [Effect.engine_on_close])
          else if !e1.long_running_mode then
            (e1, [Effect.engine_close_async])
          else
            (e1, [])
        else
          -- A different instance with the same URI sits in the table:
          -- `found_in_remotes` stays false, the remote is destroyed and the
          -- function returns without touching the lifecycle.
          (e, [Effect.remote_destroy r])
    | none =>
        (e, [Effect.remote_destroy r])

/-- Source `ten_engine_link_orphan_connection_to_remote`: creates a remote for the
URI over the orphan connection and adds it to the strong table (`fresh_rid`
models the address of the newly created `ten_remote_t`). -/
def ten_engine_link_orphan_connection_to_remote (e : Engine) (uri : String)
    (fresh_rid : Nat) : Engine :=
  ten_engine_add_remote e { rid := fresh_rid, uri := uri }

/-- Source `ten_engine_on_protocol_closed`: clears `has_uncompleted_async_task`,
drops the engine's protocol reference, and re-enters `ten_engine_on_close`.
(The C code asserts `self->is_closing` on entry.) -/
def ten_engine_on_protocol_closed (e : Engine) : Engine × List Effect :=
  ({ e with has_uncompleted_async_task := false },
   [Effect.protocol_ref_dec, Effect.engine_on_close])

/-- Source `ten_engine_on_protocol_created`: the continuation of the asynchronous
protocol creation.  If the engine is closing, the callback is invoked with
no remote, the ctx freed, and the fresh protocol closed — the engine state
(including `has_uncompleted_async_task`) is not touched on this path.
Otherwise the flag is cleared, a connection (migration state `DONE`, URI
copied from the protocol) and a remote are built, and the callback receives
the remote.  `proto_uri` is `protocol->uri`; `fresh_rid` models the address
of the new `ten_remote_t`. -/
def ten_engine_on_protocol_created (e : Engine) (proto_uri : String)
    (fresh_rid : Nat) : Engine × List Effect :=
  if e.is_closing then
    (e, [Effect.cb_invoked none, Effect.ctx_destroy,
         Effect.protocol_set_on_closed, Effect.protocol_close])
  else
    ({ e with has_uncompleted_async_task := false },
     [Effect.cb_invoked (some { rid := fresh_rid, uri := proto_uri }),
      Effect.ctx_destroy])

/-- Source `ten_engine_create_remote_async`: allocates the pending-creation ctx and
asks the addon registry to create an outbound protocol.  `addon_ok` models
the boolean result of `ten_addon_create_protocol_with_uri` (the addon
registry is a collaborator outside this core).  On success the engine's
`has_uncompleted_async_task` is set; on failure the ctx is destroyed and the
engine state is left unchanged.  Returns the updated engine, the boolean
result, and the effects. -/
def ten_engine_create_remote_async (e : Engine) (addon_ok : Bool) :
    Engine × Bool × List Effect :=
  if addon_ok then
    ({ e with has_uncompleted_async_task := true }, true, [])
  else
    (e, false, [Effect.ctx_destroy])

/-- Source `ten_engine_check_remote_is_existed`: strong hashtable first, then the
weak list. -/
def ten_engine_check_remote_is_existed (e : Engine) (uri : String) : Option Remote :=
  match e.remotes.find? (fun r => r.uri == uri) with
  | some r => some r
  | none => e.weak_remotes.find? (fun r => r.uri == uri)

/-- Source `ten_engine_check_remote_is_duplicated`: a remote (strong or weak) for
`uri` exists and `uri` is equal-or-smaller than the local app URI. -/
def ten_engine_check_remote_is_duplicated (e : Engine) (uri : String) : Bool :=
  match ten_engine_check_remote_is_existed e uri with
  | some _ => ten_c_string_is_equal_or_smaller uri e.uri
  | none => false

/-- Source `ten_engine_check_remote_is_weak`: identity lookup in the weak list. -/
def ten_engine_check_remote_is_weak (e : Engine) (r : Remote) : Bool :=
  e.weak_remotes.contains r

/-- Source `ten_engine_on_graph_remote_connected`: the remote connected, send the
stored per-hop command over its protocol and clear
`on_server_connected_cmd`. -/
def ten_engine_on_graph_remote_connected (r : Remote) (cmd : Msg) : List Effect :=
  [Effect.protocol_send_msg cmd]

/-- Source `ten_engine_on_graph_remote_connect_error`: answer the per-hop
`start_graph` with an ERROR naming the remote's URI, then close the
remote. -/
def ten_engine_on_graph_remote_connect_error (r : Remote) : List Effect :=
  [Effect.return_error_for_cmd_start_graph ("Failed to connect to " ++ r.uri),
   Effect.remote_close r]

/-- Source `ten_engine_connect_to_remote_after_remote_is_created`: the continuation
receiving the (possibly absent) freshly created remote together with the
per-hop `start_graph` command `cmd`.  No remote: answer ERROR naming the
command's first destination URI.  Duplicated: close the fresh remote and
answer OK.  Otherwise: add the remote to the weak list and start the dial,
registering the connected / connect-error continuations. -/
def ten_engine_connect_to_remote_after_remote_is_created (e : Engine)
    (remote_opt : Option Remote) (cmd : Msg) : Engine × List Effect :=
  match remote_opt with
  | none =>
      (e, [Effect.return_error_for_cmd_start_graph
             ("Failed to create remote (" ++ cmd.dest_uri ++ ")")])
  | some r =>
      if ten_engine_check_remote_is_duplicated e r.uri then
        (e, [Effect.remote_close r, Effect.return_ok_for_cmd_start_graph])
      else
        (ten_engine_add_weak_remote e r, [Effect.remote_connect_to r])

/-- Source `ten_engine_route_msg_to_remote`: look up the destination URI in the
strong table only (weak remotes carry no traffic).  `send_ok` models the
boolean result of `ten_remote_send_msg` and `send_err` the error text it
leaves in `err` when it fails.  On a miss, or on a failed send of a command,
a synthetic ERROR `cmd_result` is dispatched locally; a failed non-command
send produces nothing. -/
def ten_engine_route_msg_to_remote (e : Engine) (m : Msg) (send_ok : Bool)
    (send_err : String) : List Effect :=
  match ten_engine_find_remote e m.dest_uri with
  | some r =>
      if send_ok then
        [Effect.remote_send_msg r m]
      else if ten_msg_is_cmd m.type then
        [Effect.create_cmd_result_and_dispatch StatusCode.error send_err]
      else
        []
  | none =>
      if ten_msg_is_cmd m.type then
        [Effect.create_cmd_result_and_dispatch StatusCode.error
           ("Could not find suitable remote based on uri: " ++ m.dest_uri)]
      else
        []

/-- Modelled from the spec: `ten_msg_set_src_graph_id_if_empty` (msg
subsystem, outside the provided sources) assigns the engine as the message
source if there is none. -/
def ten_msg_set_src_graph_id_if_empty (e : Engine) (m : Msg) : Msg :=
  match m.src_graph_id with
  | none => { m with src_graph_id := some e.graph_id }
  | some _ => m

/-- Modelled from the spec:
`ten_msg_set_dest_graph_if_empty_or_predefined_graph_name` (msg subsystem,
outside the provided sources) makes the hosting engine the destination when
the message names none or names a predefined graph. -/
def ten_msg_set_dest_graph_if_empty_or_predefined_graph_name (e : Engine)
    (m : Msg) : Msg :=
  match m.dest_graph_id with
  | none => { m with dest_graph_id := some e.graph_id }
  | some g =>
      if e.predefined_graph_names.contains g then
        { m with dest_graph_id := some e.graph_id }
      else
        m

/-- Source `ten_engine_receive_msg_from_remote`: annotate the source and
destination graph fields, then dispatch by type.  A `CMD_START_GRAPH`
arriving after the graph is built is answered with a fixed-detail ERROR
result over the originating remote's connection and is not forwarded;
everything else goes to `ten_engine_dispatch_msg`.  The engine tables are
untouched on both paths. -/
def ten_engine_receive_msg_from_remote (e : Engine) (r : Remote) (m : Msg) :
    Engine × List Effect :=
  let m1 := ten_msg_set_src_graph_id_if_empty e m
  let m2 := ten_msg_set_dest_graph_if_empty_or_predefined_graph_name e m1
  match m2.type with
  | .cmd_start_graph =>
      (e, [Effect.connection_send_cmd_result StatusCode.error
             "Receive a start_graph cmd after graph is built."])
  | _ =>
      (e, [Effect.dispatch_msg m2])

/-- The weak-uniqueness invariant: at most one weak entry per URI. -/
def WeakUnique (e : Engine) : Prop :=
  ∀ u : String, ten_engine_weak_remotes_cnt_in_specified_uri e u ≤ 1

instance (e : Engine) : Decidable (WeakUnique e) := by
  unfold WeakUnique ten_engine_weak_remotes_cnt_in_specified_uri
  exact decidable_of_iff
    (∀ r ∈ e.weak_remotes, (e.weak_remotes.filter (fun x => x.uri == r.uri)).length ≤ 1)
    (by
      constructor
      · intro h u
        by_cases hu : ∃ r ∈ e.weak_remotes, r.uri = u
        · obtain ⟨r, hr, hru⟩ := hu
          simpa [hru] using h r hr
        · have : (e.weak_remotes.filter (fun x => x.uri == u)) = [] := by
            apply List.filter_eq_nil_iff.mpr
            intro x hx
            simp only [beq_iff_eq]
            intro hxu
            exact hu ⟨x, hx, hxu⟩
          simp [this]
      · intro h r _
        exact h r.uri)

/-! Helper lemmas shared by the claim theorems. -/

theorem find?_remote_eq_none_of_forall {l : List Remote} {u : String}
    (h : ∀ r ∈ l, r.uri ≠ u) : l.find? (fun r => r.uri == u) = none := by
  apply List.find?_eq_none.mpr
  intro x hx
  simpa using h x hx

theorem mem_uri_of_find?_eq_some {l : List Remote} {u : String} {r : Remote}
    (h : l.find? (fun x => x.uri == u) = some r) : r ∈ l ∧ r.uri = u := by
  refine ⟨List.mem_of_find?_eq_some h, ?_⟩
  have := List.find?_some h
  simpa using this

theorem find?_remote_isSome_of_mem {l : List Remote} {u : String} {r : Remote}
    (hr : r ∈ l) (hu : r.uri = u) : ∃ s, l.find? (fun x => x.uri == u) = some s := by
  have : (l.find? (fun x => x.uri == u)).isSome := by
    apply List.find?_isSome.mpr
    exact ⟨r, hr, by simpa using hu⟩
  exact Option.isSome_iff_exists.mp this

theorem filter_length_le_of_erase (l : List Remote) (r : Remote)
    (p : Remote → Bool) :
    ((l.erase r).filter p).length ≤ (l.filter p).length :=
  ((l.erase_sublist r).filter p).length_le

theorem msg_annotate_preserves_type (e : Engine) (m : Msg) :
    (ten_msg_set_dest_graph_if_empty_or_predefined_graph_name e
      (ten_msg_set_src_graph_id_if_empty e m)).type = m.type := by
  unfold ten_msg_set_dest_graph_if_empty_or_predefined_graph_name
    ten_msg_set_src_graph_id_if_empty
  cases m.src_graph_id <;> dsimp <;> split <;> (try split) <;> simp

/-! Claim theorems. -/

/-- C2: `check_remote_is_duplicated(peer_uri)` looks `peer_uri` up in the
strong table first, then the weak list; it returns true iff such a remote
is found (in either table) and `peer_uri ≤ local_uri` by lexicographic
compare, and false in every other case.  The strong-first order is
witnessed by the second conjunct: whenever a strong remote with the URI
exists, `check_remote_is_existed` answers with a strong-table member.
(Both functions are read-only: in this embedding they return values and no
engine state, which is the state-unchanged part of the claim.) -/
theorem check_remote_is_duplicated_spec (e : Engine) (u : String) :
    (ten_engine_check_remote_is_duplicated e u = true ↔
      ((∃ r ∈ e.remotes, r.uri = u) ∨ (∃ r ∈ e.weak_remotes, r.uri = u)) ∧
        ten_c_string_is_equal_or_smaller u e.uri = true)
    ∧ (∀ r₀ ∈ e.remotes, r₀.uri = u →
        ∃ r, ten_engine_check_remote_is_existed e u = some r ∧
          r ∈ e.remotes ∧ r.uri = u) := by
  constructor
  · unfold ten_engine_check_remote_is_duplicated ten_engine_check_remote_is_existed
    cases hf : e.remotes.find? (fun x => x.uri == u) with
    | some r =>
        obtain ⟨hmem, huri⟩ := mem_uri_of_find?_eq_some hf
        simp only []
        constructor
        · intro hle
          exact ⟨Or.inl ⟨r, hmem, huri⟩, hle⟩
        · intro h
          exact h.2
    | none =>
        cases hw : e.weak_remotes.find? (fun x => x.uri == u) with
        | some r =>
            obtain ⟨hmem, huri⟩ := mem_uri_of_find?_eq_some hw
            simp only []
            constructor
            · intro hle
              exact ⟨Or.inr ⟨r, hmem, huri⟩, hle⟩
            · intro h
              exact h.2
        | none =>
            simp only []
            constructor
            · intro h
              exact absurd h (by simp)
            · intro h
              rcases h.1 with ⟨r, hmem, huri⟩ | ⟨r, hmem, huri⟩
              · have := List.find?_eq_none.mp hf r hmem
                simp [huri] at this
              · have := List.find?_eq_none.mp hw r hmem
                simp [huri] at this
  · intro r₀ hmem huri
    obtain ⟨s, hs⟩ := find?_remote_isSome_of_mem hmem huri
    obtain ⟨hsmem, hsuri⟩ := mem_uri_of_find?_eq_some hs
    refine ⟨s, ?_, hsmem, hsuri⟩
    unfold ten_engine_check_remote_is_existed
    rw [hs]

/-- Witness for C2 at a concrete engine: local URI `"b"`, one strong remote
for `"a"` and one weak remote for `"a"`; the characterization yields
`check_remote_is_duplicated = true` and a strong-table answer. -/
theorem check_remote_is_duplicated_spec_witness :
    ten_engine_check_remote_is_duplicated
      ⟨"b", "g", [⟨1, "a"⟩], [⟨2, "a"⟩], false, false, false, []⟩ "a" = true := by
  have h := check_remote_is_duplicated_spec
    ⟨"b", "g", [⟨1, "a"⟩], [⟨2, "a"⟩], false, false, false, []⟩ "a"
  exact h.1.mpr ⟨Or.inl ⟨⟨1, "a"⟩, by decide, rfl⟩, by decide⟩

/-- C1 (counterexample): the claim says `check_remote_is_duplicated(peer_uri)`
returns true on the engine whose local URI is lexicographically smaller than
`peer_uri`.  Concretely, with local URI `"a"`, a strong remote for peer
`"b"` present, and `"a"` strictly smaller than `"b"`, the code returns
false — and on the mirror engine (local `"b"`, peer `"a"`) it returns true,
the exact opposite of the claim. -/
theorem tiebreak_direction_counterexample :
    ten_engine_check_remote_is_existed
        ⟨"a", "g", [⟨1, "b"⟩], [], false, false, false, []⟩ "b" = some ⟨1, "b"⟩ ∧
    ten_c_string_is_equal_or_smaller "a" "b" = true ∧ "a" ≠ "b" ∧
    ten_engine_check_remote_is_duplicated
        ⟨"a", "g", [⟨1, "b"⟩], [], false, false, false, []⟩ "b" = false ∧
    ten_engine_check_remote_is_duplicated
        ⟨"b", "g", [⟨1, "a"⟩], [], false, false, false, []⟩ "a" = true := by
  refine ⟨?_, ?_, ?_, ?_, ?_⟩ <;> decide

/-- C1 (amended): when a remote (strong or weak) for `peer_uri` already
exists, `check_remote_is_duplicated(peer_uri)` returns true on the engine
whose local URI is lexicographically larger than or equal to `peer_uri`
(that engine's outbound channel is the duplicate and is dropped), and
returns false on the engine whose local URI is lexicographically smaller
than `peer_uri` (that outbound channel is retained). -/
theorem tiebreak_direction (e : Engine) (u : String)
    (hex : ten_engine_check_remote_is_existed e u ≠ none) :
    (ten_c_string_is_equal_or_smaller u e.uri = true →
      ten_engine_check_remote_is_duplicated e u = true)
    ∧ (ten_c_string_is_equal_or_smaller u e.uri = false →
      ten_engine_check_remote_is_duplicated e u = false) := by
  unfold ten_engine_check_remote_is_duplicated
  cases hf : ten_engine_check_remote_is_existed e u with
  | some r => exact ⟨fun hle => hle, fun hle => hle⟩
  | none => exact absurd hf hex

/-- Witness for C1 (amended) at concrete engines: retained on the
smaller-URI side, dropped on the larger-URI side. -/
theorem tiebreak_direction_witness :
    ten_engine_check_remote_is_duplicated
        ⟨"a", "g", [⟨1, "b"⟩], [], false, false, false, []⟩ "b" = false ∧
    ten_engine_check_remote_is_duplicated
        ⟨"b", "g", [⟨1, "a"⟩], [], false, false, false, []⟩ "a" = true := by
  constructor
  · exact (tiebreak_direction
      ⟨"a", "g", [⟨1, "b"⟩], [], false, false, false, []⟩ "b" (by decide)).2 (by decide)
  · exact (tiebreak_direction
      ⟨"b", "g", [⟨1, "a"⟩], [], false, false, false, []⟩ "a" (by decide)).1 (by decide)

/-- C3: a command message with one destination whose URI has no strong
remote — regardless of any weak remote with that URI — is sent on no
remote; the only effect is a locally dispatched synthetic `cmd_result`
with status ERROR and detail exactly
`"Could not find suitable remote based on uri: {dest_uri}"`. -/
theorem route_cmd_no_strong_remote (e : Engine) (m : Msg)
    (send_ok : Bool) (send_err : String)
    (hc : ten_msg_is_cmd m.type = true)
    (hn : ∀ r ∈ e.remotes, r.uri ≠ m.dest_uri) :
    ten_engine_route_msg_to_remote e m send_ok send_err =
      [Effect.create_cmd_result_and_dispatch StatusCode.error
        ("Could not find suitable remote based on uri: " ++ m.dest_uri)] := by
  unfold ten_engine_route_msg_to_remote ten_engine_find_remote
  rw [find?_remote_eq_none_of_forall hn]
  simp [hc]

/-- Witness for C3: an engine whose only remote for `"b"` is weak still
answers a command to `"b"` with the synthetic ERROR result. -/
theorem route_cmd_no_strong_remote_witness :
    ten_engine_route_msg_to_remote
        ⟨"a", "g", [], [⟨1, "b"⟩], false, false, false, []⟩
        ⟨MsgType.cmd, "b", none, none⟩ true "" =
      [Effect.create_cmd_result_and_dispatch StatusCode.error
        "Could not find suitable remote based on uri: b"] := by
  exact route_cmd_no_strong_remote
    ⟨"a", "g", [], [⟨1, "b"⟩], false, false, false, []⟩
    ⟨MsgType.cmd, "b", none, none⟩ true "" (by decide) (by decide)

/-- C4: a `CMD_START_GRAPH` delivered to `receive_msg_from_remote` after
the graph is built is answered over the originating remote's connection
with a `cmd_result` of status ERROR and detail exactly
`"Receive a start_graph cmd after graph is built."`, is not forwarded to
`dispatch_msg`, and the engine (in particular `remotes` and
`weak_remotes`) is unchanged; every other message type is forwarded,
annotated, to `dispatch_msg`. -/
theorem receive_msg_from_remote_spec (e : Engine) (r : Remote) (m : Msg) :
    ((ten_engine_receive_msg_from_remote e r m).1 = e)
    ∧ (m.type = MsgType.cmd_start_graph →
        (ten_engine_receive_msg_from_remote e r m).2 =
          [Effect.connection_send_cmd_result StatusCode.error
            "Receive a start_graph cmd after graph is built."])
    ∧ (m.type ≠ MsgType.cmd_start_graph →
        (ten_engine_receive_msg_from_remote e r m).2 =
          [Effect.dispatch_msg
            (ten_msg_set_dest_graph_if_empty_or_predefined_graph_name e
              (ten_msg_set_src_graph_id_if_empty e m))]) := by
  have htype := msg_annotate_preserves_type e m
  simp only [ten_engine_receive_msg_from_remote]
  rw [htype]
  refine ⟨?_, ?_, ?_⟩
  · cases m.type <;> rfl
  · intro h
    rw [h]
  · intro h
    cases hm : m.type <;> first | exact absurd hm h | rfl

/-- Witness for C4: a concrete `CMD_START_GRAPH` is answered with the fixed
ERROR detail and the engine is unchanged; a concrete data message is
forwarded to `dispatch_msg`. -/
theorem receive_msg_from_remote_spec_witness :
    (ten_engine_receive_msg_from_remote
        ⟨"a", "g", [⟨1, "b"⟩], [], false, false, false, []⟩ ⟨1, "b"⟩
        ⟨MsgType.cmd_start_graph, "a", none, none⟩ =
      (⟨"a", "g", [⟨1, "b"⟩], [], false, false, false, []⟩,
       [Effect.connection_send_cmd_result StatusCode.error
         "Receive a start_graph cmd after graph is built."]))
    ∧ (ten_engine_receive_msg_from_remote
        ⟨"a", "g", [⟨1, "b"⟩], [], false, false, false, []⟩ ⟨1, "b"⟩
        ⟨MsgType.data, "a", none, none⟩).2 =
      [Effect.dispatch_msg ⟨MsgType.data, "a", some "g", some "g"⟩] := by
  constructor
  · have h := receive_msg_from_remote_spec
      ⟨"a", "g", [⟨1, "b"⟩], [], false, false, false, []⟩ ⟨1, "b"⟩
      ⟨MsgType.cmd_start_graph, "a", none, none⟩
    have h2 := h.2.1 rfl
    exact Prod.ext h.1 h2
  · have h := receive_msg_from_remote_spec
      ⟨"a", "g", [⟨1, "b"⟩], [], false, false, false, []⟩ ⟨1, "b"⟩
      ⟨MsgType.data, "a", none, none⟩
    rw [h.2.2 (by decide)]
    rfl

/-- C5: each per-hop `start_graph` command gets exactly one outcome.  With
no remote delivered, the continuation answers ERROR with detail
`"Failed to create remote (u)"` for the hop's destination URI and changes
nothing else.  When the peer is classified duplicated, the fresh remote is
closed and the hop is answered OK.  Otherwise the remote enters the weak
list and the dial starts; then a connect error answers ERROR
`"Failed to connect to {u}"` and closes the remote, while a successful
connect sends the command over the remote's protocol and synthesizes no
result. -/
theorem start_graph_per_hop_result (e : Engine) (cmd : Msg) (r : Remote) :
    (ten_engine_connect_to_remote_after_remote_is_created e none cmd =
      (e, [Effect.return_error_for_cmd_start_graph
            ("Failed to create remote (" ++ cmd.dest_uri ++ ")")]))
    ∧ (ten_engine_check_remote_is_duplicated e r.uri = true →
        ten_engine_connect_to_remote_after_remote_is_created e (some r) cmd =
          (e, [Effect.remote_close r, Effect.return_ok_for_cmd_start_graph]))
    ∧ (ten_engine_check_remote_is_duplicated e r.uri = false →
        ten_engine_connect_to_remote_after_remote_is_created e (some r) cmd =
          (ten_engine_add_weak_remote e r, [Effect.remote_connect_to r]))
    ∧ (ten_engine_on_graph_remote_connect_error r =
        [Effect.return_error_for_cmd_start_graph ("Failed to connect to " ++ r.uri),
         Effect.remote_close r])
    ∧ (ten_engine_on_graph_remote_connected r cmd = [Effect.protocol_send_msg cmd]) := by
  refine ⟨rfl, ?_, ?_, rfl, rfl⟩
  · intro h
    simp [ten_engine_connect_to_remote_after_remote_is_created, h]
  · intro h
    simp [ten_engine_connect_to_remote_after_remote_is_created, h]

/-- Witness for C5: the duplicated branch (engine `"b"` already holding a
strong remote for `"a"`) answers OK and closes the fresh remote; the
non-duplicated branch (empty engine dialing `"b"`) adds the remote to the
weak list and starts the dial. -/
theorem start_graph_per_hop_result_witness :
    (ten_engine_connect_to_remote_after_remote_is_created
        ⟨"b", "g", [⟨1, "a"⟩], [], false, false, false, []⟩
        (some ⟨2, "a"⟩) ⟨MsgType.cmd_start_graph, "a", none, none⟩ =
      (⟨"b", "g", [⟨1, "a"⟩], [], false, false, false, []⟩,
       [Effect.remote_close ⟨2, "a"⟩, Effect.return_ok_for_cmd_start_graph]))
    ∧ (ten_engine_connect_to_remote_after_remote_is_created
        ⟨"a", "g", [], [], false, false, false, []⟩
        (some ⟨3, "b"⟩) ⟨MsgType.cmd_start_graph, "b", none, none⟩ =
      (⟨"a", "g", [], [⟨3, "b"⟩], false, false, false, []⟩,
       [Effect.remote_connect_to ⟨3, "b"⟩])) := by
  constructor
  · exact (start_graph_per_hop_result
      ⟨"b", "g", [⟨1, "a"⟩], [], false, false, false, []⟩
      ⟨MsgType.cmd_start_graph, "a", none, none⟩ ⟨2, "a"⟩).2.1 (by decide)
  · exact (start_graph_per_hop_result
      ⟨"a", "g", [], [], false, false, false, []⟩
      ⟨MsgType.cmd_start_graph, "b", none, none⟩ ⟨3, "b"⟩).2.2.1 (by decide)

/-- C6 (counterexample): the claim says `on_protocol_created` clears
`has_uncompleted_async_task` before testing `engine.is_closing`, so the
flag is false after the continuation on both paths.  On a concrete engine
that is closing with the flag set, the continuation leaves the flag set:
the code tests `is_closing` first and does not clear the flag on that
path. -/
theorem on_protocol_created_flag_counterexample :
    (⟨"a", "g", [], [], true, false, true, []⟩ : Engine).is_closing = true ∧
    (ten_engine_on_protocol_created
        ⟨"a", "g", [], [], true, false, true, []⟩ "b" 7).1.has_uncompleted_async_task
      = true := by
  exact ⟨rfl, rfl⟩

/-- C6 (amended): `on_protocol_created` tests `engine.is_closing` first and
clears `has_uncompleted_async_task` only on the normal (not-closing) path;
on the `is_closing` path the engine state — the flag included — is left
untouched, and the flag is cleared later by `on_protocol_closed` once the
protocol's close completes. -/
theorem on_protocol_created_flag (e : Engine) (proto_uri : String) (rid : Nat) :
    ((ten_engine_on_protocol_created e proto_uri rid).1.has_uncompleted_async_task =
      (if e.is_closing then e.has_uncompleted_async_task else false))
    ∧ ((ten_engine_on_protocol_created e proto_uri rid).1 =
        (if e.is_closing then e else { e with has_uncompleted_async_task := false }))
    ∧ ((ten_engine_on_protocol_closed e).1.has_uncompleted_async_task = false) := by
  unfold ten_engine_on_protocol_created ten_engine_on_protocol_closed
  cases h : e.is_closing <;> simp [h]

/-- C7: `create_remote_async` returns true iff the addon registry
successfully starts creating the protocol; on success the engine's
`has_uncompleted_async_task` is set; on failure the pending-creation ctx
is destroyed, the engine is unchanged, and false is returned. -/
theorem create_remote_async_spec (e : Engine) (addon_ok : Bool) :
    ((ten_engine_create_remote_async e addon_ok).2.1 = addon_ok)
    ∧ ((ten_engine_create_remote_async e addon_ok).1 =
        (if addon_ok then { e with has_uncompleted_async_task := true } else e))
    ∧ ((ten_engine_create_remote_async e addon_ok).2.2 =
        (if addon_ok then [] else [Effect.ctx_destroy])) := by
  unfold ten_engine_create_remote_async
  cases addon_ok <;> simp

theorem weakUnique_of_weak_sublist {e' e : Engine}
    (hs : e'.weak_remotes.Sublist e.weak_remotes) (h : WeakUnique e) :
    WeakUnique e' := by
  intro u
  have h1 : (e'.weak_remotes.filter (fun x => x.uri == u)).length ≤
      (e.weak_remotes.filter (fun x => x.uri == u)).length :=
    (hs.filter _).length_le
  exact h1.trans (h u)

theorem on_remote_closed_weak_sublist (e : Engine) (r : Remote) :
    (ten_engine_on_remote_closed e r).1.weak_remotes.Sublist e.weak_remotes := by
  simp only [ten_engine_on_remote_closed]
  split
  · split <;> exact e.weak_remotes.erase_sublist r
  · split
    · split
      · split
        · exact List.Sublist.refl _
        · split <;> exact List.Sublist.refl _
      · exact List.Sublist.refl _
    · exact List.Sublist.refl _

/-- C8: weak uniqueness — at most one weak remote per URI — is preserved by
every weak-table operation of this core: `add_weak_remote` under its
asserted precondition (no existing weak entry with the same URI, the
`TEN_ASSERT(!found, ...)` check), `del_weak_remote`, the weak→strong
promotion `upgrade_weak_remote_to_normal_remote`, and `on_remote_closed`. -/
theorem weak_uniqueness_preserved (e : Engine) (r : Remote) (h : WeakUnique e) :
    (ten_engine_find_weak_remote e r.uri = none →
      WeakUnique (ten_engine_add_weak_remote e r))
    ∧ WeakUnique (ten_engine_del_weak_remote e r).1
    ∧ WeakUnique (ten_engine_upgrade_weak_remote_to_normal_remote e r)
    ∧ WeakUnique (ten_engine_on_remote_closed e r).1 := by
  have hcount : ∀ u, (e.weak_remotes.filter (fun x => x.uri == u)).length ≤ 1 := h
  refine ⟨?_, ?_, ?_, ?_⟩
  · intro hnone u
    unfold ten_engine_find_weak_remote at hnone
    unfold ten_engine_weak_remotes_cnt_in_specified_uri ten_engine_add_weak_remote
    dsimp
    rw [List.filter_append]
    by_cases hu : r.uri = u
    · have hl : e.weak_remotes.filter (fun x => x.uri == u) = [] := by
        apply List.filter_eq_nil_iff.mpr
        intro x hx
        have hx2 := List.find?_eq_none.mp hnone x hx
        simp only [beq_iff_eq] at hx2 ⊢
        intro hxu
        exact hx2 (hxu.trans hu.symm)
      rw [hl]
      by_cases hp : (r.uri == u) = true <;> simp [List.filter_singleton, hp]
    · have hr1 : [r].filter (fun x => x.uri == u) = [] := by
        simp [hu]
      rw [hr1, List.append_nil]
      exact hcount u
  · exact weakUnique_of_weak_sublist (e.weak_remotes.erase_sublist r) h
  · exact weakUnique_of_weak_sublist (e.weak_remotes.erase_sublist r) h
  · exact weakUnique_of_weak_sublist (on_remote_closed_weak_sublist e r) h

/-- Witness for C8 at a concrete engine holding one weak remote for `"b"`:
adding a weak remote for the distinct URI `"c"` keeps weak uniqueness. -/
theorem weak_uniqueness_preserved_witness :
    WeakUnique (ten_engine_add_weak_remote
      ⟨"a", "g", [], [⟨1, "b"⟩], false, false, false, []⟩ ⟨2, "c"⟩) := by
  exact (weak_uniqueness_preserved
    ⟨"a", "g", [], [⟨1, "b"⟩], false, false, false, []⟩ ⟨2, "c"⟩
    (by decide)).1 (by decide)

/-- C9: when `on_remote_closed` removed the closed remote from a table (it
was weak, or it was the exact instance found in the strong table by its
URI): if the engine is closing `engine.on_close()` runs and `close_async`
never does; otherwise `close_async` is scheduled exactly when the remote
was not weak and `long_running_mode` is false. -/
theorem on_remote_closed_lifecycle (e : Engine) (r : Remote)
    (hrem : e.weak_remotes.contains r = true ∨
      e.remotes.find? (fun s => s.uri == r.uri) = some r) :
    (e.is_closing = true →
      Effect.engine_on_close ∈ (ten_engine_on_remote_closed e r).2 ∧
      Effect.engine_close_async ∉ (ten_engine_on_remote_closed e r).2)
    ∧ (e.is_closing = false →
      (Effect.engine_close_async ∈ (ten_engine_on_remote_closed e r).2 ↔
        (e.weak_remotes.contains r = false ∧ e.long_running_mode = false))) := by
  by_cases hw : e.weak_remotes.contains r = true
  · have hmem : r ∈ e.weak_remotes := by simpa using hw
    constructor
    · intro hc
      simp [ten_engine_on_remote_closed, hw, hmem, hc]
    · intro hc
      simp [ten_engine_on_remote_closed, hw, hmem, hc]
  · have hw' : e.weak_remotes.contains r = false := by simpa using hw
    have hnmem : r ∉ e.weak_remotes := by simpa using hw
    have hf : e.remotes.find? (fun s => s.uri == r.uri) = some r :=
      hrem.resolve_left hw
    constructor
    · intro hc
      simp [ten_engine_on_remote_closed, hw', hnmem, hf, hc]
    · intro hc
      by_cases hl : e.long_running_mode = true
      · simp [ten_engine_on_remote_closed, hw', hnmem, hf, hc, hl]
      · have hl' : e.long_running_mode = false := by simpa using hl
        simp [ten_engine_on_remote_closed, hw', hnmem, hf, hc, hl']

/-- Witness for C9: closing the only strong remote of a non-closing,
non-long-running engine schedules `close_async`; on a closing engine the
weak-remote close drives `on_close`. -/
theorem on_remote_closed_lifecycle_witness :
    Effect.engine_close_async ∈
      (ten_engine_on_remote_closed
        ⟨"a", "g", [⟨1, "b"⟩], [], false, false, false, []⟩ ⟨1, "b"⟩).2 ∧
    Effect.engine_on_close ∈
      (ten_engine_on_remote_closed
        ⟨"a", "g", [], [⟨1, "b"⟩], true, false, false, []⟩ ⟨1, "b"⟩).2 := by
  constructor
  · exact ((on_remote_closed_lifecycle
      ⟨"a", "g", [⟨1, "b"⟩], [], false, false, false, []⟩ ⟨1, "b"⟩
      (Or.inr (by decide))).2 rfl).mpr (by decide)
  · exact ((on_remote_closed_lifecycle
      ⟨"a", "g", [], [⟨1, "b"⟩], true, false, false, []⟩ ⟨1, "b"⟩
      (Or.inl (by decide))).1 rfl).1

/-- C10: a non-command message with one destination that misses the strong
table, or whose send on the found remote fails, produces no effect at all —
no synthetic `cmd_result`, no delivery; and every locally dispatched
synthetic `cmd_result` produced by `route_msg_to_remote` comes from a
command message. -/
theorem route_non_cmd_silent (e : Engine) (m : Msg) (send_ok : Bool)
    (send_err : String) :
    (ten_msg_is_cmd m.type = false →
      ((∀ r ∈ e.remotes, r.uri ≠ m.dest_uri) ∨ send_ok = false) →
      ten_engine_route_msg_to_remote e m send_ok send_err = [])
    ∧ (∀ st d,
        Effect.create_cmd_result_and_dispatch st d ∈
          ten_engine_route_msg_to_remote e m send_ok send_err →
        ten_msg_is_cmd m.type = true) := by
  constructor
  · intro hnc hcase
    unfold ten_engine_route_msg_to_remote ten_engine_find_remote
    rcases hcase with hall | hso
    · rw [find?_remote_eq_none_of_forall hall]
      simp [hnc]
    · cases hfind : e.remotes.find? (fun x => x.uri == m.dest_uri) <;>
        simp [hnc, hso]
  · intro st d hmem
    by_contra hc
    have hnc : ten_msg_is_cmd m.type = false := by simpa using hc
    unfold ten_engine_route_msg_to_remote ten_engine_find_remote at hmem
    rcases hfind : e.remotes.find? (fun x => x.uri == m.dest_uri) with _ | rf
    · rw [hfind] at hmem
      simp [hnc] at hmem
    · rw [hfind] at hmem
      by_cases hso : send_ok = true
      · simp [hso] at hmem
      · have hso' : send_ok = false := by simpa using hso
        simp [hso', hnc] at hmem

/-- Witness for C10: a data message to `"b"` whose send fails on the found
strong remote is dropped with no effect. -/
theorem route_non_cmd_silent_witness :
    ten_engine_route_msg_to_remote
      ⟨"a", "g", [⟨1, "b"⟩], [], false, false, false, []⟩
      ⟨MsgType.data, "b", none, none⟩ false "send failed" = [] := by
  exact (route_non_cmd_silent
    ⟨"a", "g", [⟨1, "b"⟩], [], false, false, false, []⟩
    ⟨MsgType.data, "b", none, none⟩ false "send failed").1 rfl (Or.inr rfl)

end TenRemoteInterface
